import Mathlib

/-!
Verification of the podcast note-taker mockup.

The development shallowly embeds the two Python sources of the repository:

* `peer_podcast_streamlit_mockup.py` (v0.3): the SQLite-backed
  transcript/summary cache (`cache_get`, `cache_save`), the MD5 content
  fingerprint (`file_md5`), the fallback playback timer, the marks list and
  its newest-first view, and the Generate-summary button handler.
* `app.py` (MVP): the mock playback clock (`fake_current_time`).

Wall-clock instants are modelled as integer seconds; SQLite's `REPLACE INTO`
on the `id` primary key is modelled as delete-then-append on a row list.
All definitions come first, followed by the theorems about them.
-/

namespace Podcast

/-! ### Transcript/summary cache (peer_podcast_streamlit_mockup.py, lines 66-97) -/

/-- One row of the SQLite `cache` table, as `(id, transcript, summary)`.
The `created` timestamp column is never read by the program and is omitted. -/
abbrev CacheRow := String × String × String

/-- The `cache` table: a list of rows whose first component `id` is the
primary key, kept unique by `REPLACE INTO`. -/
abbrev CacheDB := List CacheRow

/-- Embeds `cache_get` (lines 89-92): `SELECT transcript, summary FROM cache
WHERE id=?` followed by `fetchone()`; since `id` is the primary key at most
one row matches. -/
def cache_get (db : CacheDB) (id_ : String) : Option (String × String) :=
  (db.find? (fun r => r.1 == id_)).map (fun r => (r.2.1, r.2.2))

/-- Embeds `cache_save` (lines 95-97): `REPLACE INTO
cache(id,transcript,summary) VALUES (?,?,?)` deletes any row with the same
primary key and inserts the new row. -/
def cache_save (db : CacheDB) (id_ transcript summary : String) : CacheDB :=
  db.filter (fun r => r.1 != id_) ++ [(id_, transcript, summary)]

/-- Key uniqueness invariant of the `cache` table: every key matches at most
one row. -/
def one_per_key (db : CacheDB) : Prop :=
  ∀ g : String, db.countP (fun r => r.1 == g) ≤ 1

/-! ### Mock playback clocks

`app.py` stores `play_start` (a wall-clock instant or `None`) and computes
the position on demand; the v0.3 mockup additionally keeps the last computed
position in `st.session_state.current_time` and recomputes it on every rerun
while `play_start` is present.  Wall-clock instants are integer seconds. -/

/-- Embeds `fake_current_time` (app.py lines 29-33): `0` when `play_start` is
`None`, otherwise `int(time.time() - play_start)`. -/
def fake_current_time (play_start : Option Int) (now : Int) : Int :=
  match play_start with
  | none => 0
  | some s => now - s

/-- Embeds the Play button (app.py line 61): `play_start = time.time()`. -/
def app_start_clock (now : Int) : Option Int := some now

/-- Embeds the Stop button (app.py line 64): `play_start = None`, whatever it
was before. -/
def app_stop_clock (_play_start : Option Int) : Option Int := none

/-- A user action on the v0.3 fallback timer during one Streamlit rerun
(mockup lines 158-162): press Start, press Stop, or neither. -/
inductive TimerAction
  | start
  | stop
  | idle

/-- The fallback-timer slice of `st.session_state` in the v0.3 mockup:
`play_start` (absent after Stop pops it) and the last computed
`current_time`. -/
structure MockupTimer where
  play_start : Option Int
  current_time : Int
deriving DecidableEq

/-- One rerun of the fallback-timer block (mockup lines 156-164): the Start
button sets `play_start` to now, the Stop button pops it, and afterwards
`current_time` is recomputed only when `play_start` is (still) present. -/
def mockup_rerun (st : MockupTimer) (act : TimerAction) (now : Int) : MockupTimer :=
  let st1 : MockupTimer :=
    match act with
    | .start => { st with play_start := some now }
    | .stop => { st with play_start := none }
    | .idle => st
  match st1.play_start with
  | some s => { st1 with current_time := now - s }
  | none => st1

/-! ### Key moments (peer_podcast_streamlit_mockup.py, lines 176-212) -/

/-- A saved key moment: the dict `{"ts": ..., "note": ...}` appended by the
Mark-this-moment button.  The timestamp is the session's `current_time`. -/
structure Mark where
  ts : Int
  note : String
deriving DecidableEq

/-- Embeds the Mark-this-moment button (line 178):
`marks.append({"ts": current_time, "note": ""})`. -/
def add_mark (marks : List Mark) (current_time : Int) : List Mark :=
  marks ++ [{ ts := current_time, note := "" }]

/-- Embeds the key-moments view (line 207):
`sorted(marks, key=lambda m: m["ts"], reverse=True)` — a stable descending
sort by timestamp that returns a new list. -/
def marks_newest_first (marks : List Mark) : List Mark :=
  marks.mergeSort (fun a b => decide (b.ts ≤ a.ts))

/-- Embeds the inline note edit (lines 210-212): `mark["note"] = note`
replaces the note of the `i`-th mark of the list in place. -/
def edit_mark_note : List Mark → Nat → String → List Mark
  | [], _, _ => []
  | m :: ms, 0, newNote => { m with note := newNote } :: ms
  | m :: ms, i + 1, newNote => m :: edit_mark_note ms i newNote

/-! ### The Generate-summary handler (peer_podcast_streamlit_mockup.py, lines 180-195) -/

/-- Embeds the stub `transcribe_audio` (lines 103-105); the simulated
latency has no observable effect on state. -/
def transcribe_audio (_data : List (Fin 256)) : String :=
  "[Transcript would go here …]"

/-- Embeds the stub `summarize_text` (lines 108-110). -/
def summarize_text (_text : String) : String :=
  "[Summary generated from transcript …]"

/-- Observable outcome of one press of the Generate-summary button: the
displayed result (or the error message passed to `st.error` before
`st.stop()`), the cache table afterwards, and whether each stub ran. -/
structure SummaryOutcome where
  result : Except String (String × String)
  db : CacheDB
  transcribe_ran : Bool
  summarize_ran : Bool

/-- Embeds the Generate-summary handler (lines 181-195): look up the
fingerprint; on a hit reuse the pair; on a miss with a URL source show the
error and stop; otherwise run the stubs and save the result. -/
def generate_summary (db : CacheDB) (from_url : Bool) (file_id : String)
    (audio_bytes : List (Fin 256)) : SummaryOutcome :=
  match cache_get db file_id with
  | some (t, s) => ⟨.ok (t, s), db, false, false⟩
  | none =>
    if from_url then
      ⟨.error "Server‑side download not implemented yet for URL transcription.", db,
        false, false⟩
    else
      let transcript := transcribe_audio audio_bytes
      let summary := summarize_text transcript
      ⟨.ok (transcript, summary), cache_save db file_id transcript summary, true, true⟩

/-! ### The content fingerprint (peer_podcast_streamlit_mockup.py, lines 83-86)

`file_md5` is `hashlib.md5(data).hexdigest()`, with `str` input UTF-8 encoded
first.  The MD5 algorithm (RFC 1321) is embedded over `Nat` with explicit
`% 2^32`; the bitwise word operations are written by structural recursion on
a 32-bit counter so that every definition evaluates inside the kernel. -/

/-- Bitwise AND of the low `k` bits of two naturals. -/
def bitAndAux : Nat → Nat → Nat → Nat
  | 0, _, _ => 0
  | k + 1, x, y => x % 2 * (y % 2) + 2 * bitAndAux k (x / 2) (y / 2)

/-- Bitwise OR of the low `k` bits of two naturals. -/
def bitOrAux : Nat → Nat → Nat → Nat
  | 0, _, _ => 0
  | k + 1, x, y => (x % 2 + y % 2 - x % 2 * (y % 2)) + 2 * bitOrAux k (x / 2) (y / 2)

/-- Bitwise XOR of the low `k` bits of two naturals. -/
def bitXorAux : Nat → Nat → Nat → Nat
  | 0, _, _ => 0
  | k + 1, x, y => (x % 2 + y % 2) % 2 + 2 * bitXorAux k (x / 2) (y / 2)

/-- 32-bit AND. -/
def and32 (x y : Nat) : Nat := bitAndAux 32 x y

/-- 32-bit OR. -/
def or32 (x y : Nat) : Nat := bitOrAux 32 x y

/-- 32-bit XOR. -/
def xor32 (x y : Nat) : Nat := bitXorAux 32 x y

/-- 32-bit complement. -/
def not32 (x : Nat) : Nat := 4294967295 - x % 4294967296

/-- 32-bit rotate left by `s` bits (`0 ≤ s < 32`). -/
def rotl32 (x s : Nat) : Nat :=
  x % 4294967296 / 2 ^ (32 - s) + x % 4294967296 * 2 ^ s % 4294967296

/-- The 64 MD5 round constants `floor(abs(sin(i+1)) * 2^32)` (RFC 1321). -/
def md5K : List Nat :=
  [3614090360, 3905402710, 606105819, 3250441966, 4118548399, 1200080426,
   2821735955, 4249261313, 1770035416, 2336552879, 4294925233, 2304563134,
   1804603682, 4254626195, 2792965006, 1236535329, 4129170786, 3225465664,
   643717713, 3921069994, 3593408605, 38016083, 3634488961, 3889429448,
   568446438, 3275163606, 4107603335, 1163531501, 2850285829, 4243563512,
   1735328473, 2368359562, 4294588738, 2272392833, 1839030562, 4259657740,
   2763975236, 1272893353, 4139469664, 3200236656, 681279174, 3936430074,
   3572445317, 76029189, 3654602809, 3873151461, 530742520, 3299628645,
   4096336452, 1126891415, 2878612391, 4237533241, 1700485571, 2399980690,
   4293915773, 2240044497, 1873313359, 4264355552, 2734768916, 1309151649,
   4149444226, 3174756917, 718787259, 3951481745]

/-- The 64 MD5 per-round left-rotation amounts (RFC 1321). -/
def md5S : List Nat :=
  [7, 12, 17, 22, 7, 12, 17, 22, 7, 12, 17, 22, 7, 12, 17, 22,
   5, 9, 14, 20, 5, 9, 14, 20, 5, 9, 14, 20, 5, 9, 14, 20,
   4, 11, 16, 23, 4, 11, 16, 23, 4, 11, 16, 23, 4, 11, 16, 23,
   6, 10, 15, 21, 6, 10, 15, 21, 6, 10, 15, 21, 6, 10, 15, 21]

/-- Little-endian 32-bit word `j` of a 64-byte block. -/
def blockWord (blk : List Nat) (j : Nat) : Nat :=
  blk.getD (4 * j) 0 + 256 * blk.getD (4 * j + 1) 0 +
    65536 * blk.getD (4 * j + 2) 0 + 16777216 * blk.getD (4 * j + 3) 0

/-- Round `i` of the MD5 compression function on state `(A, B, C, D)`. -/
def md5Step (blk : List Nat) (st : Nat × Nat × Nat × Nat) (i : Nat) :
    Nat × Nat × Nat × Nat :=
  let fg : Nat × Nat :=
    if i < 16 then (or32 (and32 st.2.1 st.2.2.1) (and32 (not32 st.2.1) st.2.2.2), i)
    else if i < 32 then
      (or32 (and32 st.2.2.2 st.2.1) (and32 (not32 st.2.2.2) st.2.2.1), (5 * i + 1) % 16)
    else if i < 48 then (xor32 (xor32 st.2.1 st.2.2.1) st.2.2.2, (3 * i + 5) % 16)
    else (xor32 st.2.2.1 (or32 st.2.1 (not32 st.2.2.2)), 7 * i % 16)
  let tmp := (fg.1 + st.1 + md5K.getD i 0 + blockWord blk fg.2) % 4294967296
  (st.2.2.2, (st.2.1 + rotl32 tmp (md5S.getD i 0)) % 4294967296, st.2.1, st.2.2.1)

/-- One 64-byte block of the MD5 compression: 64 rounds, then add the old
state words mod `2^32`. -/
def md5Block (st : Nat × Nat × Nat × Nat) (blk : List Nat) : Nat × Nat × Nat × Nat :=
  let r := (List.range 64).foldl (md5Step blk) st
  ((st.1 + r.1) % 4294967296, (st.2.1 + r.2.1) % 4294967296,
    (st.2.2.1 + r.2.2.1) % 4294967296, (st.2.2.2 + r.2.2.2) % 4294967296)

/-- MD5 padding: a `0x80` byte, zeros up to 56 mod 64, then the original
length in bits as 8 little-endian bytes mod `2^64`. -/
def md5Pad (msg : List Nat) : List Nat :=
  msg ++ 128 :: List.replicate ((119 - msg.length % 64) % 64) 0 ++
    (List.range 8).map (fun k => msg.length * 8 % 18446744073709551616 / 256 ^ k % 256)

/-- Split a list into 64-byte chunks; the first argument is recursion fuel
(any value at least the list length works). -/
def chunksAux : Nat → List Nat → List (List Nat)
  | 0, _ => []
  | _ + 1, [] => []
  | fuel + 1, x :: xs => (x :: xs).take 64 :: chunksAux fuel ((x :: xs).drop 64)

/-- The four 32-bit MD5 state words of a byte message, after padding and
folding the compression function from the RFC 1321 initial state. -/
def md5Words (msg : List Nat) : Nat × Nat × Nat × Nat :=
  (chunksAux (md5Pad msg).length (md5Pad msg)).foldl md5Block
    (1732584193, 4023233417, 2562383102, 271733878)

/-- Lowercase hex digit. -/
def hexChar (n : Nat) : Char :=
  if n < 10 then Char.ofNat (48 + n) else Char.ofNat (87 + n)

/-- Two lowercase hex digits of a byte. -/
def byteHex (b : Nat) : List Char := [hexChar (b / 16), hexChar (b % 16)]

/-- The four bytes of a 32-bit word, little-endian. -/
def wordLEBytes (w : Nat) : List Nat :=
  [w % 256, w / 256 % 256, w / 65536 % 256, w / 16777216 % 256]

/-- Hex digest string of the four state words (16 bytes, little-endian per
word, two lowercase hex digits per byte). -/
def md5hexOfWords (w : Nat × Nat × Nat × Nat) : String :=
  String.mk ((wordLEBytes w.1 ++ wordLEBytes w.2.1 ++ wordLEBytes w.2.2.1 ++
    wordLEBytes w.2.2.2).foldr (fun b acc => byteHex b ++ acc) [])

/-- Embeds `hashlib.md5(data).hexdigest()` for a byte message. -/
def md5hex (msg : List Nat) : String := md5hexOfWords (md5Words msg)

/-- A Python `bytes | str` argument of `file_md5`. -/
inductive PyData
  | bytes (bs : List (Fin 256))
  | str (s : String)

/-- A byte from a natural number (mod 256). -/
def toByte (n : Nat) : Fin 256 := ⟨n % 256, Nat.mod_lt _ (by norm_num)⟩

/-- UTF-8 encoding of one character, as Python `str.encode` produces per
code point. -/
def utf8EncodeChar (c : Char) : List (Fin 256) :=
  if c.toNat < 128 then [toByte c.toNat]
  else if c.toNat < 2048 then
    [toByte (192 + c.toNat / 64), toByte (128 + c.toNat % 64)]
  else if c.toNat < 65536 then
    [toByte (224 + c.toNat / 4096), toByte (128 + c.toNat / 64 % 64),
      toByte (128 + c.toNat % 64)]
  else
    [toByte (240 + c.toNat / 262144), toByte (128 + c.toNat / 4096 % 64),
      toByte (128 + c.toNat / 64 % 64), toByte (128 + c.toNat % 64)]

/-- Embeds Python `s.encode()`: the UTF-8 bytes of a string. -/
def utf8Encode (s : String) : List (Fin 256) :=
  s.data.foldr (fun c acc => utf8EncodeChar c ++ acc) []

/-- Embeds `file_md5` (lines 83-86): `str` input is UTF-8 encoded first, and
the result is the MD5 hexdigest of the bytes. -/
def file_md5 : PyData → String
  | .str s => md5hex ((utf8Encode s).map Fin.val)
  | .bytes bs => md5hex (bs.map Fin.val)

/-- The MD5 state words of a byte sequence packed into a single number below
`2^128`; used to count fingerprints. -/
def md5PackedDigest (bs : List (Fin 256)) :
    Fin 340282366920938463463374607431768211456 :=
  ⟨((md5Words (bs.map Fin.val)).1
      + 4294967296 * (md5Words (bs.map Fin.val)).2.1
      + 18446744073709551616 * (md5Words (bs.map Fin.val)).2.2.1
      + 79228162514264337593543950336 * (md5Words (bs.map Fin.val)).2.2.2)
      % 340282366920938463463374607431768211456,
    Nat.mod_lt _ (by norm_num)⟩

/-! ### Cache lemmas -/

/-- Reading back the key just written returns the written pair. -/
theorem cache_get_save_same (db : CacheDB) (f t s : String) :
    cache_get (cache_save db f t s) f = some (t, s) := by
  induction db with
  | nil => simp [cache_get, cache_save]
  | cons a db ih =>
    by_cases h : a.1 = f
    · simp [cache_save, cache_get, List.filter_cons, h]
    · simp [cache_save, cache_get, List.filter_cons, List.find?_cons, h]

/-- Writing key `f` does not disturb lookups of any other key `f'`. -/
theorem cache_get_save_other (db : CacheDB) (f f' t s : String) (h : f' ≠ f) :
    cache_get (cache_save db f t s) f' = cache_get db f' := by
  have hff : f ≠ f' := fun hh => h hh.symm
  induction db with
  | nil => simp [cache_get, cache_save, hff]
  | cons a db ih =>
    by_cases ha : a.1 = f
    · simpa [cache_save, cache_get, List.filter_cons, List.find?_cons, ha, hff] using ih
    · by_cases hx : a.1 = f'
      · simp [cache_save, cache_get, List.filter_cons, List.find?_cons, ha, hx, h]
      · simpa [cache_save, cache_get, List.filter_cons, List.find?_cons, ha, hx] using ih

/-- After a save, the saved key occurs on exactly one row. -/
theorem cache_save_countP (db : CacheDB) (f t s : String) :
    (cache_save db f t s).countP (fun r => r.1 == f) = 1 := by
  induction db with
  | nil => simp [cache_save]
  | cons a db ih =>
    by_cases h : a.1 = f
    · simp [cache_save, List.filter_cons, h]
    · simp [cache_save, List.filter_cons, List.countP_cons, h]

/-- A `cache_save` preserves key uniqueness. -/
theorem cache_save_one_per_key (db : CacheDB) (f t s : String)
    (h : one_per_key db) : one_per_key (cache_save db f t s) := by
  intro g
  by_cases hg : g = f
  · subst hg
    exact le_of_eq (cache_save_countP db g t s)
  · have hfg : f ≠ g := fun hh => hg hh.symm
    have h1 : (cache_save db f t s).countP (fun r => r.1 == g)
        = (db.filter (fun r => r.1 != f)).countP (fun r => r.1 == g) := by
      simp [cache_save, List.countP_append, hfg]
    calc (cache_save db f t s).countP (fun r => r.1 == g)
        = (db.filter (fun r => r.1 != f)).countP (fun r => r.1 == g) := h1
      _ ≤ db.countP (fun r => r.1 == g) :=
          (List.filter_sublist db).countP_le _
      _ ≤ 1 := h g

/-! ### Timer lemmas -/

/-- A rerun with no button press leaves a stopped timer entirely unchanged. -/
theorem mockup_rerun_idle_stopped (st : MockupTimer) (h : st.play_start = none)
    (now : Int) : mockup_rerun st .idle now = st := by
  simp [mockup_rerun, h]

/-- Any sequence of idle reruns leaves a stopped timer unchanged. -/
theorem mockup_foldl_idle_stopped (st : MockupTimer) (h : st.play_start = none)
    (ts : List Int) :
    ts.foldl (fun u now => mockup_rerun u .idle now) st = st := by
  induction ts with
  | nil => rfl
  | cons a ts ih =>
    simp only [List.foldl_cons, mockup_rerun_idle_stopped st h a]
    exact ih

/-! ### MD5 range lemmas -/

/-- Each word of the output of one compression block is below `2^32`. -/
theorem md5Block_lt (st : Nat × Nat × Nat × Nat) (blk : List Nat) :
    (md5Block st blk).1 < 4294967296 ∧ (md5Block st blk).2.1 < 4294967296 ∧
    (md5Block st blk).2.2.1 < 4294967296 ∧ (md5Block st blk).2.2.2 < 4294967296 :=
  ⟨Nat.mod_lt _ (by norm_num), Nat.mod_lt _ (by norm_num),
    Nat.mod_lt _ (by norm_num), Nat.mod_lt _ (by norm_num)⟩

/-- Folding compression blocks keeps every state word below `2^32`. -/
theorem md5FoldBlocks_lt (blocks : List (List Nat)) (st : Nat × Nat × Nat × Nat)
    (h : st.1 < 4294967296 ∧ st.2.1 < 4294967296 ∧
      st.2.2.1 < 4294967296 ∧ st.2.2.2 < 4294967296) :
    (blocks.foldl md5Block st).1 < 4294967296 ∧
    (blocks.foldl md5Block st).2.1 < 4294967296 ∧
    (blocks.foldl md5Block st).2.2.1 < 4294967296 ∧
    (blocks.foldl md5Block st).2.2.2 < 4294967296 := by
  induction blocks generalizing st with
  | nil => exact h
  | cons b bs ih => exact ih _ (md5Block_lt st b)

/-- Every MD5 state word of a message is below `2^32`. -/
theorem md5Words_lt (msg : List Nat) :
    (md5Words msg).1 < 4294967296 ∧ (md5Words msg).2.1 < 4294967296 ∧
    (md5Words msg).2.2.1 < 4294967296 ∧ (md5Words msg).2.2.2 < 4294967296 :=
  md5FoldBlocks_lt _ _ (by norm_num)

/-! ### Claims about the cache -/

/-- Claim C1: for every fingerprint `f` and pair `(t, s)`, `cache_save db f t s`
followed by `cache_get f` returns exactly `some (t, s)`. -/
theorem put_then_get (db : CacheDB) (f t s : String) :
    cache_get (cache_save db f t s) f = some (t, s) :=
  cache_get_save_same db f t s

/-- Claim C2: a second `cache_save` under the same fingerprint replaces the
earlier entry: `cache_get` returns the later pair, the fingerprint occupies
exactly one row, and key uniqueness of the table is preserved. -/
theorem second_put_replaces (db : CacheDB) (f t1 s1 t2 s2 : String) :
    cache_get (cache_save (cache_save db f t1 s1) f t2 s2) f = some (t2, s2) ∧
    (cache_save (cache_save db f t1 s1) f t2 s2).countP (fun r => r.1 == f) = 1 ∧
    (one_per_key db → one_per_key (cache_save (cache_save db f t1 s1) f t2 s2)) :=
  ⟨cache_get_save_same _ f t2 s2, cache_save_countP _ f t2 s2,
    fun h => cache_save_one_per_key _ f t2 s2 (cache_save_one_per_key db f t1 s1 h)⟩

/-- Witness for claim C2 at a concrete table. -/
theorem second_put_replaces_witness :
    cache_get (cache_save (cache_save [] "f" "t1" "s1") "f" "t2" "s2") "f"
      = some ("t2", "s2") ∧
    one_per_key (cache_save (cache_save [] "f" "t1" "s1") "f" "t2" "s2") := by
  have h := second_put_replaces [] "f" "t1" "s1" "t2" "s2"
  exact ⟨h.1, h.2.2 (fun g => by simp)⟩

/-- Claim C9: writing fingerprint `f` leaves the entry of every other
fingerprint `f'` unchanged, hit or miss. -/
theorem put_frame (db : CacheDB) (f f' t s : String) (h : f' ≠ f) :
    cache_get (cache_save db f t s) f' = cache_get db f' :=
  cache_get_save_other db f f' t s h

/-- Witness for claim C9 at a concrete table and keys. -/
theorem put_frame_witness :
    cache_get (cache_save [("b", "tb", "sb")] "a" "t" "s") "b"
      = cache_get [("b", "tb", "sb")] "b" :=
  put_frame [("b", "tb", "sb")] "a" "b" "t" "s" (by decide)

/-! ### Claims about the playback clock -/

/-- Claim C3, counterexample on `app.py`: start at instant 10; at instant 15
the position is 5; Stop clears `play_start`, after which every
`fake_current_time` query returns 0, not the value 5 the position had at the
moment of stopping.  So the claim that queries after stopping return the
frozen pre-stop value fails on `app.py`. -/
theorem stop_not_frozen_app :
    fake_current_time (app_start_clock 10) 15 = 5 ∧
    fake_current_time (app_stop_clock (app_start_clock 10)) 15 = 0 ∧
    fake_current_time (app_stop_clock (app_start_clock 10)) 20 = 0 ∧
    (0 : Int) ≠ 5 := by
  refine ⟨rfl, rfl, rfl, by decide⟩

/-- Claim C3 as amended: after Stop, position queries are constant until
Start is pressed again; in the v0.3 mockup that constant is the position
value at the moment of stopping (`current_time` is genuinely frozen through
any sequence of later reruns), while in `app.py` every post-stop query
returns 0 rather than the pre-stop value. -/
theorem stop_freezes (st : MockupTimer) (s : Int) (_running : st.play_start = some s)
    (nowStop : Int) (laterTimes : List Int) :
    ((mockup_rerun st .stop nowStop).play_start = none ∧
      (mockup_rerun st .stop nowStop).current_time = st.current_time ∧
      (laterTimes.foldl (fun u now => mockup_rerun u .idle now)
          (mockup_rerun st .stop nowStop)).current_time = st.current_time) ∧
    ∀ ps : Option Int, ∀ now : Int, fake_current_time (app_stop_clock ps) now = 0 := by
  have hstop : mockup_rerun st .stop nowStop = { st with play_start := none } := by
    simp [mockup_rerun]
  refine ⟨⟨by rw [hstop], by rw [hstop], ?_⟩, fun ps now => rfl⟩
  rw [hstop, mockup_foldl_idle_stopped _ rfl]

/-- Witness for the amended claim C3: a timer frozen at position 7 stays at 7
through the stopping rerun and two later reruns. -/
theorem stop_freezes_witness :
    (mockup_rerun ⟨some 2, 7⟩ .stop 12).play_start = none ∧
    (mockup_rerun ⟨some 2, 7⟩ .stop 12).current_time = 7 ∧
    (([13, 14] : List Int).foldl (fun u now => mockup_rerun u .idle now)
        (mockup_rerun ⟨some 2, 7⟩ .stop 12)).current_time = 7 ∧
    fake_current_time (app_stop_clock (some 2)) 99 = 0 := by
  have h := stop_freezes ⟨some 2, 7⟩ 2 rfl 12 [13, 14]
  exact ⟨h.1.1, h.1.2.1, h.1.2.2, h.2 (some 2) 99⟩

/-- Claim C4 is violated by the code: with clock skew (a `now` earlier than
the recorded start instant) both versions return a negative position; nothing
clamps to 0.  Start instant 10, query at instant 5: `app.py` returns −5 and
the v0.3 mockup stores −5 into `current_time`. -/
theorem negative_position_bug :
    fake_current_time (some 10) 5 = -5 ∧
    (mockup_rerun ⟨some 10, 3⟩ .idle 5).current_time = -5 ∧
    (-5 : Int) < 0 := by
  refine ⟨rfl, rfl, by decide⟩

/-! ### Claims about the key moments -/

/-- Claim C6: the newest-first view has non-increasing timestamps (every
mark's timestamp is at least the next one's) and is a permutation of the
marks collection, whose insertion order it leaves untouched. -/
theorem newest_first_sorted (marks : List Mark) :
    (marks_newest_first marks).Pairwise (fun a b => b.ts ≤ a.ts) ∧
    (marks_newest_first marks).Perm marks := by
  constructor
  · have h := @List.sorted_mergeSort Mark
      (fun a b : Mark => decide (b.ts ≤ a.ts))
      (fun a b c hab hbc => by
        simp only [decide_eq_true_eq] at hab hbc ⊢
        omega)
      (fun a b => by
        simp only [Bool.or_eq_true, decide_eq_true_eq]
        omega)
      marks
    exact h.imp (fun hab => by simpa using hab)
  · exact List.mergeSort_perm marks _

/-- Claim C7: editing the note of the `i`-th mark changes only that mark's
note: its timestamp is unchanged, the list keeps its length, and every other
position is untouched. -/
theorem edit_note_frame (ms : List Mark) (i : Nat) (newNote : String)
    (hi : i < ms.length) :
    (edit_mark_note ms i newNote).length = ms.length ∧
    ((edit_mark_note ms i newNote)[i]?).map Mark.ts = (ms[i]?).map Mark.ts ∧
    ((edit_mark_note ms i newNote)[i]?).map Mark.note = some newNote ∧
    ∀ j : Nat, j ≠ i → (edit_mark_note ms i newNote)[j]? = ms[j]? := by
  induction ms generalizing i with
  | nil => exact absurd hi (by simp)
  | cons m ms ih =>
    cases i with
    | zero =>
      refine ⟨by simp [edit_mark_note], by simp [edit_mark_note], by simp [edit_mark_note], ?_⟩
      intro j hj
      cases j with
      | zero => exact absurd rfl hj
      | succ k => simp [edit_mark_note]
    | succ i' =>
      have hi' : i' < ms.length := by simpa using hi
      obtain ⟨hlen, hts, hnote, hother⟩ := ih i' hi'
      refine ⟨by simpa [edit_mark_note] using hlen,
        by simpa [edit_mark_note] using hts,
        by simpa [edit_mark_note] using hnote, ?_⟩
      intro j hj
      cases j with
      | zero => simp [edit_mark_note]
      | succ k =>
        have hk : k ≠ i' := fun hh => hj (by simp [hh])
        simpa [edit_mark_note] using hother k hk

/-- Witness for claim C7: editing the note of the second of two marks. -/
theorem edit_note_frame_witness :
    (edit_mark_note [⟨3, "a"⟩, ⟨5, "b"⟩] 1 "x").length = 2 ∧
    ((edit_mark_note [⟨3, "a"⟩, ⟨5, "b"⟩] 1 "x")[1]?).map Mark.ts = some 5 ∧
    ((edit_mark_note [⟨3, "a"⟩, ⟨5, "b"⟩] 1 "x")[1]?).map Mark.note = some "x" ∧
    (edit_mark_note [⟨3, "a"⟩, ⟨5, "b"⟩] 1 "x")[0]? = some ⟨3, "a"⟩ := by
  have h := edit_note_frame [⟨3, "a"⟩, ⟨5, "b"⟩] 1 "x" (by decide)
  refine ⟨h.1, ?_, h.2.2.1, ?_⟩
  · rw [h.2.1]; rfl
  · rw [h.2.2.2 0 (by decide)]; rfl

/-! ### Claim about the Generate-summary handler -/

/-- Claim C8: with a URL source and no cached entry for its fingerprint, the
handler fails with the explicit not-implemented error, runs neither stub, and
leaves the cache table untouched. -/
theorem url_miss_unsupported (db : CacheDB) (file_id : String)
    (audio_bytes : List (Fin 256)) (hmiss : cache_get db file_id = none) :
    generate_summary db true file_id audio_bytes =
      ⟨.error "Server‑side download not implemented yet for URL transcription.", db,
        false, false⟩ := by
  simp [generate_summary, hmiss]

/-- Witness for claim C8: a URL fingerprint absent from a one-row table. -/
theorem url_miss_unsupported_witness :
    generate_summary [("other", "t", "s")] true "f" [] =
      ⟨.error "Server‑side download not implemented yet for URL transcription.",
        [("other", "t", "s")], false, false⟩ :=
  url_miss_unsupported [("other", "t", "s")] "f" [] (by decide)

/-! ### Claims about the fingerprint -/

/-- Claim C5, counterexample to its second half: the fingerprint of a byte
sequence is one of at most `2^128` values, while there are infinitely many
byte sequences, so two distinct byte sequences share a fingerprint — "any
two distinct byte sequences yield different fingerprints" is false. -/
theorem md5_collision_exists :
    ∃ a b : List (Fin 256), a ≠ b ∧
      file_md5 (PyData.bytes a) = file_md5 (PyData.bytes b) := by
  obtain ⟨a, b, hab, heq⟩ := Finite.exists_ne_map_eq_of_infinite md5PackedDigest
  refine ⟨a, b, hab, ?_⟩
  have hv := congrArg Fin.val heq
  simp only [md5PackedDigest] at hv
  have ha := md5Words_lt (a.map Fin.val)
  have hb := md5Words_lt (b.map Fin.val)
  have hcomp : (md5Words (a.map Fin.val)).1 = (md5Words (b.map Fin.val)).1 ∧
      (md5Words (a.map Fin.val)).2.1 = (md5Words (b.map Fin.val)).2.1 ∧
      (md5Words (a.map Fin.val)).2.2.1 = (md5Words (b.map Fin.val)).2.2.1 ∧
      (md5Words (a.map Fin.val)).2.2.2 = (md5Words (b.map Fin.val)).2.2.2 := by
    obtain ⟨ha1, ha2, ha3, ha4⟩ := ha
    obtain ⟨hb1, hb2, hb3, hb4⟩ := hb
    omega
  have hw : md5Words (a.map Fin.val) = md5Words (b.map Fin.val) := by
    obtain ⟨h1, h2, h3, h4⟩ := hcomp
    exact Prod.ext h1 (Prod.ext h2 (Prod.ext h3 h4))
  show md5hexOfWords (md5Words (a.map Fin.val)) = md5hexOfWords (md5Words (b.map Fin.val))
  rw [hw]

set_option maxRecDepth 100000 in
set_option maxHeartbeats 1000000 in
/-- Claim C5 as amended: the fingerprint is deterministic (a pure function of
the content), and distinct content yields distinct fingerprints only with
overwhelming probability, not always; the three concrete test payloads
`b"AAAA"`, `b"B"`, `b""` do receive pairwise distinct fingerprints. -/
theorem fingerprint_deterministic_distinct :
    (∀ d : PyData, file_md5 d = file_md5 d) ∧
    file_md5 (PyData.bytes [65, 65, 65, 65]) ≠ file_md5 (PyData.bytes [66]) ∧
    file_md5 (PyData.bytes [65, 65, 65, 65]) ≠ file_md5 (PyData.bytes []) ∧
    file_md5 (PyData.bytes [66]) ≠ file_md5 (PyData.bytes []) := by
  refine ⟨fun d => rfl, by decide, by decide, by decide⟩

/-- Claim C10: the fingerprint of a string equals the fingerprint of its
UTF-8 byte encoding, so a URL string and an uploaded file holding exactly
those bytes share one cache entry: saving under the string's fingerprint is
found again under the byte fingerprint. -/
theorem str_bytes_same_fingerprint (s : String) (db : CacheDB) (t sum : String) :
    file_md5 (PyData.str s) = file_md5 (PyData.bytes (utf8Encode s)) ∧
    cache_get (cache_save db (file_md5 (PyData.str s)) t sum)
      (file_md5 (PyData.bytes (utf8Encode s))) = some (t, sum) :=
  ⟨rfl, cache_get_save_same db _ t sum⟩

end Podcast
